import Mathlib

/-!
Verification of the GaussianCDF curve-function plugin.

The source is a small C module exporting four functions:

  void GetFunctionName(char* name)        -- strcpy_s(name, 255, "f1: GaussianCDF ...")
  void GetFunctionValue(double* x, double* a, double* y)
      -- *y = 0.5 * a[0] * (1.0 + erf((x[0] - a[1]) / (a[2] * sqrt(2.0)))) + a[3]
  void GetNumParameters(int* n)           -- *n = 4
  void GetNumVariables(int* n)            -- *n = 1

Doubles are modelled as real numbers.  The error function erf is defined by its
integral, as in the C math library: erf z = (2/sqrt pi) * int_0^z exp(-t^2) dt.
Caller-supplied arrays are modelled as lists of reals; a read of index i is
List.getElem?, and an out-of-bounds read (undefined behaviour in C) is modelled
by the dedicated outcome outOfBounds.  The name buffer is modelled by its
capacity in bytes; strcpy_s is given the fixed size argument 255 by the code,
so the physical write overflows exactly when the true capacity is below
length + 1 (the terminator byte included).
-/

namespace GaussianCDF

/-- The Gauss error function, defined by its standard integral form
(this is the function computed by the C library call erf). -/
noncomputable def erf (z : ℝ) : ℝ :=
  (2 / Real.sqrt Real.pi) * ∫ t in (0:ℝ)..z, Real.exp (-(t ^ 2))

/-- Error taxonomy of the spec.  The legacy C code never produces either value;
the constructors exist so that theorems can speak about their absence. -/
inductive PluginError where
  | ArityMismatch
  | BufferTooSmall
deriving DecidableEq

/-- Outcome of a call to GetFunctionValue: a value written through the output
pointer, or an out-of-bounds array read (undefined behaviour in C). -/
inductive ValueResult where
  | ok (y : ℝ)
  | outOfBounds
  | error (e : PluginError)

/-- True exactly when a value was written through the output pointer. -/
def ValueResult.isOk : ValueResult → Bool
  | ValueResult.ok _ => true
  | _ => false

/-- True exactly when the call signalled an error from the taxonomy. -/
def ValueResult.isError : ValueResult → Bool
  | ValueResult.error _ => true
  | _ => false

/-- Embedding of the C function GetFunctionValue.  The source reads x[0],
a[0], a[1], a[2], a[3] unconditionally and writes
0.5 * a[0] * (1.0 + erf((x[0] - a[1]) / (a[2] * sqrt(2.0)))) + a[3]
through the output pointer. -/
noncomputable def GetFunctionValue (x a : List ℝ) : ValueResult :=
  match x[0]?, a[0]?, a[1]?, a[2]?, a[3]? with
  | some x0, some a0, some a1, some a2, some a3 =>
      ValueResult.ok (0.5 * a0 * (1 + erf ((x0 - a1) / (a2 * Real.sqrt 2))) + a3)
  | _, _, _, _, _ => ValueResult.outOfBounds

/-- The closed-form scalar of the source, as a function of the five reals the
code reads: 0.5 * a0 * (1 + erf ((x0 - a1) / (a2 * sqrt 2))) + a3. -/
noncomputable def gaussianCDF (x0 a0 a1 a2 a3 : ℝ) : ℝ :=
  0.5 * a0 * (1 + erf ((x0 - a1) / (a2 * Real.sqrt 2))) + a3

/-- The fixed string the C source copies into the name buffer. -/
def functionName : String :=
  "f1: GaussianCDF f1=amplitude/2*(1+erf((x-mu)/(sigma*sqrt(2))))+offset"

/-- The size argument the C source passes to strcpy_s. -/
def strcpySizeArg : Nat := 255

/-- Outcome of a call to GetFunctionName on a buffer of a given capacity:
the string written (terminator included), or a write past the end of the
buffer (undefined behaviour in C). -/
inductive NameResult where
  | written (s : String)
  | outOfBounds
  | error (e : PluginError)
deriving DecidableEq

/-- Embedding of the C function GetFunctionName.  The code calls
strcpy_s(name, 255, functionName): strcpy_s copies the whole string, the
terminator included, whenever the source length is below its size argument;
the code cannot see the true capacity of the buffer, so the physical write
runs past the end of any buffer whose capacity is below length + 1. -/
def GetFunctionName (capacity : Nat) : NameResult :=
  if functionName.length < strcpySizeArg then
    if functionName.length + 1 ≤ capacity then NameResult.written functionName
    else NameResult.outOfBounds
  else NameResult.outOfBounds

/-- Numeric value of a list of decimal digit characters. -/
def digitsVal (l : List Char) : Nat :=
  l.foldl (fun n c => 10 * n + (c.toNat - 48)) 0

/-- Decidable matcher for the identity pattern: the character f, a nonempty
run of digits denoting a positive integer, then a colon, then free text. -/
def matchesFPattern (s : String) : Bool :=
  match s.data with
  | 'f' :: rest =>
      let ds := rest.takeWhile Char.isDigit
      (!ds.isEmpty) && decide (0 < digitsVal ds) &&
        (match rest.dropWhile Char.isDigit with
         | ':' :: _ => true
         | _ => false)
  | _ => false

/-- Spec-side checked variant of GetFunctionValue, following the defensive
contract in the spec: fail fast with ArityMismatch when the array lengths do
not match the declared counts, instead of reading out of bounds. -/
noncomputable def GetFunctionValueChecked (x a : List ℝ) : ValueResult :=
  if x.length = 1 ∧ a.length = 4 then GetFunctionValue x a
  else ValueResult.error PluginError.ArityMismatch

/-- Spec-side checked variant of GetFunctionName, following the defensive
contract in the spec: fail with BufferTooSmall when the buffer capacity is
below the required bound, instead of overflowing. -/
def GetFunctionNameChecked (capacity : Nat) : NameResult :=
  if functionName.length + 1 ≤ capacity then NameResult.written functionName
  else NameResult.error PluginError.BufferTooSmall

/-- The full observable state a call can touch: the two input arrays, the
scalar output cell, the two integer output cells and the name buffer.  The
module itself holds no state, so this is everything. -/
structure Env where
  x : List ℝ
  a : List ℝ
  y : ℝ
  np : Int
  nv : Int
  nameBuf : String

/-- One call of GetFunctionValue on the machine state: the source writes only
through the output pointer y (an out-of-bounds read is undefined behaviour and
writes no defined value). -/
noncomputable def runGetFunctionValue (e : Env) : Env :=
  match GetFunctionValue e.x e.a with
  | ValueResult.ok v => { e with y := v }
  | _ => e

/-- One call of GetNumParameters on the machine state: the source writes the
constant 4 through the output pointer n. -/
def runGetNumParameters (e : Env) : Env := { e with np := 4 }

/-- One call of GetNumVariables on the machine state: the source writes the
constant 1 through the output pointer n. -/
def runGetNumVariables (e : Env) : Env := { e with nv := 1 }

/-- One call of GetFunctionName on the machine state: the source copies the
fixed identity string into the name buffer. -/
def runGetFunctionName (e : Env) : Env := { e with nameBuf := functionName }

/-- The Gaussian integrand is continuous. -/
lemma continuous_expNegSq : Continuous fun t : ℝ => Real.exp (-(t ^ 2)) :=
  Real.continuous_exp.comp (continuous_pow 2).neg

/-- The Gaussian integrand is interval integrable on every interval. -/
lemma intervalIntegrable_expNegSq (a b : ℝ) :
    IntervalIntegrable (fun t : ℝ => Real.exp (-(t ^ 2))) MeasureTheory.volume a b :=
  continuous_expNegSq.intervalIntegrable a b

/-- The error function vanishes at the origin. -/
lemma erf_zero : erf 0 = 0 := by
  simp [erf]

/-- The error function is strictly monotone. -/
lemma erf_strictMono : StrictMono erf := by
  intro s u hsu
  have hc : (0 : ℝ) < 2 / Real.sqrt Real.pi := by positivity
  have hpos : 0 < ∫ t in s..u, Real.exp (-(t ^ 2)) :=
    intervalIntegral.intervalIntegral_pos_of_pos (intervalIntegrable_expNegSq s u)
      (fun t => Real.exp_pos _) hsu
  have hsplit :
      (∫ t in (0:ℝ)..s, Real.exp (-(t ^ 2))) + ∫ t in s..u, Real.exp (-(t ^ 2)) =
        ∫ t in (0:ℝ)..u, Real.exp (-(t ^ 2)) :=
    intervalIntegral.integral_add_adjacent_intervals
      (intervalIntegrable_expNegSq 0 s) (intervalIntegrable_expNegSq s u)
  have hlt : (∫ t in (0:ℝ)..s, Real.exp (-(t ^ 2))) <
      ∫ t in (0:ℝ)..u, Real.exp (-(t ^ 2)) := by linarith
  exact mul_lt_mul_of_pos_left hlt hc

/-- Claim C1: for every variable array x and parameter array a satisfying the
arity preconditions (x has 1 element, a has 4 elements), GetFunctionValue
writes through its output pointer exactly the value
0.5 * a[0] * (1 + erf ((x[0] - a[1]) / (a[2] * sqrt 2))) + a[3]. -/
theorem C1_value_formula (x a : List ℝ) (hx : x.length = 1) (ha : a.length = 4) :
    GetFunctionValue x a =
      ValueResult.ok (0.5 * a.getD 0 0 *
        (1 + erf ((x.getD 0 0 - a.getD 1 0) / (a.getD 2 0 * Real.sqrt 2))) +
          a.getD 3 0) := by
  obtain ⟨x0, rfl⟩ := List.length_eq_one.mp hx
  rcases a with _ | ⟨a0, a⟩; · simp at ha
  rcases a with _ | ⟨a1, a⟩; · simp at ha
  rcases a with _ | ⟨a2, a⟩; · simp at ha
  rcases a with _ | ⟨a3, a⟩; · simp at ha
  rcases a with _ | ⟨a4, a⟩
  · rfl
  · simp at ha

/-- Witness for C1 at the concrete input x = [0], a = [2, 0, 1, 1]. -/
theorem C1_value_formula_witness :
    ([(0:ℝ)].length = 1 ∧ [(2:ℝ), 0, 1, 1].length = 4) ∧
      GetFunctionValue [(0:ℝ)] [2, 0, 1, 1] =
        ValueResult.ok (0.5 * [(2:ℝ), 0, 1, 1].getD 0 0 *
          (1 + erf (([(0:ℝ)].getD 0 0 - [(2:ℝ), 0, 1, 1].getD 1 0) /
            ([(2:ℝ), 0, 1, 1].getD 2 0 * Real.sqrt 2))) +
              [(2:ℝ), 0, 1, 1].getD 3 0) :=
  ⟨⟨rfl, rfl⟩, C1_value_formula _ _ rfl rfl⟩

/-- Claim C2: on every call (from any machine state, so no configuration or
prior call has any effect), GetNumParameters writes the constant 4 and
GetNumVariables writes the constant 1 through their output pointers. -/
theorem C2_constant_counts (e : Env) :
    (runGetNumParameters e).np = 4 ∧ (runGetNumVariables e).nv = 1 :=
  ⟨rfl, rfl⟩

/-- Claim C3: GetFunctionName always writes the same fixed, non-empty string;
it matches the pattern f, positive integer, colon, free text; and its length
including the terminator is strictly below 255 bytes. -/
theorem C3_fixed_name :
    (∀ capacity, functionName.length + 1 ≤ capacity →
        GetFunctionName capacity = NameResult.written functionName) ∧
      functionName ≠ "" ∧ matchesFPattern functionName = true ∧
        functionName.length + 1 < 255 := by
  refine ⟨?_, by decide, by decide, by decide⟩
  intro c hc
  unfold GetFunctionName
  rw [if_pos (by decide : functionName.length < strcpySizeArg), if_pos hc]

/-- Witness for C3 at the documented capacity 255. -/
theorem C3_fixed_name_witness :
    functionName.length + 1 ≤ 255 ∧
      GetFunctionName 255 = NameResult.written functionName :=
  ⟨by decide, C3_fixed_name.1 255 (by decide)⟩

/-- Claim C4: with sigma nonzero, evaluating at x[0] = mu yields exactly
offset + amplitude / 2, since erf 0 = 0. -/
theorem C4_value_at_mu (A M S O : ℝ) (hS : S ≠ 0) :
    GetFunctionValue [M] [A, M, S, O] = ValueResult.ok (O + A / 2) := by
  show ValueResult.ok (0.5 * A * (1 + erf ((M - M) / (S * Real.sqrt 2))) + O) =
    ValueResult.ok (O + A / 2)
  rw [sub_self, zero_div, erf_zero]
  congr 1
  ring

/-- Witness for C4 at the concrete input x = [0], a = [2, 0, 1, 1], which
yields exactly 2. -/
theorem C4_value_at_mu_witness :
    (1:ℝ) ≠ 0 ∧ GetFunctionValue [(0:ℝ)] [2, 0, 1, 1] = ValueResult.ok 2 := by
  refine ⟨one_ne_zero, ?_⟩
  have h := C4_value_at_mu 2 0 1 1 one_ne_zero
  norm_num at h
  exact h

/-- Claim C5: for fixed parameters with amplitude positive and sigma nonzero,
the map from x[0] to the value written by GetFunctionValue is monotonic
(strictly increasing for sigma positive, strictly decreasing for sigma
negative, since the error function is strictly monotone). -/
theorem C5_monotone_in_x (A M S O : ℝ) (hA : 0 < A) (hS : S ≠ 0) :
    (∀ t, GetFunctionValue [t] [A, M, S, O] =
        ValueResult.ok (gaussianCDF t A M S O)) ∧
      (StrictMono (fun t => gaussianCDF t A M S O) ∨
        StrictAnti (fun t => gaussianCDF t A M S O)) := by
  refine ⟨fun t => rfl, ?_⟩
  have hs2 : (0:ℝ) < Real.sqrt 2 := Real.sqrt_pos.mpr (by norm_num)
  have hcoef : (0:ℝ) < 0.5 * A := by linarith
  rcases hS.lt_or_lt with hneg | hpos
  · right
    intro t u htu
    have hden : S * Real.sqrt 2 < 0 := mul_neg_of_neg_of_pos hneg hs2
    have harg : (u - M) / (S * Real.sqrt 2) < (t - M) / (S * Real.sqrt 2) := by
      rw [div_lt_div_right_of_neg hden]
      linarith
    have herf := erf_strictMono harg
    show gaussianCDF u A M S O < gaussianCDF t A M S O
    unfold gaussianCDF
    nlinarith [mul_lt_mul_of_pos_left herf hcoef]
  · left
    intro t u htu
    have hden : 0 < S * Real.sqrt 2 := mul_pos hpos hs2
    have harg : (t - M) / (S * Real.sqrt 2) < (u - M) / (S * Real.sqrt 2) := by
      rw [div_lt_div_iff_of_pos_right hden]
      linarith
    have herf := erf_strictMono harg
    show gaussianCDF t A M S O < gaussianCDF u A M S O
    unfold gaussianCDF
    nlinarith [mul_lt_mul_of_pos_left herf hcoef]

/-- Witness for C5 at the concrete parameters amplitude 1, mu 0, sigma 1,
offset 0. -/
theorem C5_monotone_in_x_witness :
    ((0:ℝ) < 1 ∧ (1:ℝ) ≠ 0) ∧
      ((∀ t, GetFunctionValue [t] [(1:ℝ), 0, 1, 0] =
          ValueResult.ok (gaussianCDF t 1 0 1 0)) ∧
        (StrictMono (fun t => gaussianCDF t 1 0 1 0) ∨
          StrictAnti (fun t => gaussianCDF t 1 0 1 0))) :=
  ⟨⟨one_pos, one_ne_zero⟩, C5_monotone_in_x 1 0 1 0 one_pos one_ne_zero⟩

/-- Claim C7 fails on the code as written: with a variable array of two
elements the arity precondition is violated, yet GetFunctionValue succeeds
and writes a value; it signals no error of any kind. -/
theorem C7_counterexample :
    [(0:ℝ), 5].length = 2 ∧
      (GetFunctionValue [(0:ℝ), 5] [1, 2, 3, 4]).isOk = true ∧
      (GetFunctionValue [(0:ℝ), 5] [1, 2, 3, 4]).isError = false :=
  ⟨rfl, rfl, rfl⟩

/-- Amended C7: GetFunctionValue performs no arity check and never signals
ArityMismatch; it reads x[0] and a[0]..a[3] unconditionally, so the call
writes a value exactly when x has at least 1 and a at least 4 elements
(extra elements are tolerated), and otherwise reads out of bounds. -/
theorem C7_no_arity_check (x a : List ℝ) :
    (GetFunctionValue x a).isError = false ∧
      (GetFunctionValue x a).isOk =
        (decide (1 ≤ x.length) && decide (4 ≤ a.length)) := by
  rcases x with _ | ⟨x0, xt⟩ <;>
    rcases a with _ | ⟨a0, _ | ⟨a1, _ | ⟨a2, _ | ⟨a3, as'⟩⟩⟩⟩ <;>
      simp [GetFunctionValue, ValueResult.isOk, ValueResult.isError]

/-- Claim C8 fails on the code as written: on a buffer of capacity 10, which
is below the 70 bytes the identity string needs, GetFunctionName overflows
the buffer instead of failing with BufferTooSmall. -/
theorem C8_counterexample :
    10 < functionName.length + 1 ∧
      GetFunctionName 10 = NameResult.outOfBounds ∧
      decide (GetFunctionName 10 =
        NameResult.error PluginError.BufferTooSmall) = false := by
  refine ⟨by decide, by decide, by decide⟩

/-- Amended C8: GetFunctionName cannot see the true buffer capacity and never
signals BufferTooSmall; its strcpy_s call checks only its fixed size argument
255, so it writes the full string whenever the capacity holds length + 1
bytes and otherwise overflows the buffer. -/
theorem C8_no_capacity_check (capacity : Nat) :
    GetFunctionName capacity =
      if functionName.length + 1 ≤ capacity then NameResult.written functionName
      else NameResult.outOfBounds := by
  unfold GetFunctionName
  rw [if_pos (by decide : functionName.length < strcpySizeArg)]

/-- Claim C9: the result of GetFunctionValue depends only on x[0] and
a[0]..a[3]: two calls whose arrays agree at those positions produce the same
outcome, so extra elements beyond the declared arities never influence the
result. -/
theorem C9_depends_only_on_reads (x1 x2 a1 a2 : List ℝ)
    (hx : x1[0]? = x2[0]?) (h0 : a1[0]? = a2[0]?) (h1 : a1[1]? = a2[1]?)
    (h2 : a1[2]? = a2[2]?) (h3 : a1[3]? = a2[3]?) :
    GetFunctionValue x1 a1 = GetFunctionValue x2 a2 := by
  unfold GetFunctionValue
  rw [hx, h0, h1, h2, h3]

/-- Witness for C9: adding an extra variable element and an extra parameter
element leaves the outcome unchanged. -/
theorem C9_depends_only_on_reads_witness :
    ([(1:ℝ), 99][0]? = [(1:ℝ)][0]? ∧
      [(2:ℝ), 3, 4, 5, 77][0]? = [(2:ℝ), 3, 4, 5][0]? ∧
      [(2:ℝ), 3, 4, 5, 77][1]? = [(2:ℝ), 3, 4, 5][1]? ∧
      [(2:ℝ), 3, 4, 5, 77][2]? = [(2:ℝ), 3, 4, 5][2]? ∧
      [(2:ℝ), 3, 4, 5, 77][3]? = [(2:ℝ), 3, 4, 5][3]?) ∧
      GetFunctionValue [(1:ℝ), 99] [2, 3, 4, 5, 77] =
        GetFunctionValue [(1:ℝ)] [2, 3, 4, 5] :=
  ⟨⟨rfl, rfl, rfl, rfl, rfl⟩,
    C9_depends_only_on_reads _ _ _ _ rfl rfl rfl rfl rfl⟩

/-- Claim C10: every operation writes only through its designated output
location: GetFunctionValue leaves x, a and all other cells unchanged and
writes only the scalar y; GetNumParameters writes only np; GetNumVariables
writes only nv; GetFunctionName writes only the name buffer. -/
theorem C10_frame (e : Env) :
    ((runGetFunctionValue e).x = e.x ∧ (runGetFunctionValue e).a = e.a ∧
      (runGetFunctionValue e).np = e.np ∧ (runGetFunctionValue e).nv = e.nv ∧
      (runGetFunctionValue e).nameBuf = e.nameBuf) ∧
    runGetNumParameters e = { e with np := 4 } ∧
    runGetNumVariables e = { e with nv := 1 } ∧
    runGetFunctionName e = { e with nameBuf := functionName } := by
  refine ⟨?_, rfl, rfl, rfl⟩
  cases h : GetFunctionValue e.x e.a <;> simp [runGetFunctionValue, h]

end GaussianCDF
